import Mathlib

/-!
Verification of the transition engine of the machin persistent
finite-state-machine library.

Shallow embedding, translated from the source:
* structure files: the actor implementation (ActorImpl with send),
  the machine builder, the Redis adapter with BoundMachineImpl, errors.
* JS object records with string keys are association lists
  (List (String × α)); property access is lookupProp, an absent key
  yields none.  An absent on table is the empty list: optional chaining
  reads both the same way.
* Timestamps (Date values) are naturals; the call new Date() inside
  send becomes an explicit now argument threaded by the caller.
* Entry functions (ctx, payload) => ctx | Promise<ctx> that may throw or
  reject are C → P → Except E C; awaiting a resolved promise and a
  synchronous return coincide after the engine normalizes them, so both
  are the .ok case and throw or reject is the .error case.
* send returns its outcome together with the list of snapshots passed to
  adapter.save during the call, making persistence counts observable.
* The Redis store is an association list from keys to snapshots; a set
  prepends, and load takes the most recent binding, which models the
  unconditional overwrite.  JSON round-tripping of a snapshot is taken
  as the identity.
-/

namespace Machin

/-- JS object property lookup on a record modelled as an association list.
The most recent binding (front of the list) wins, matching assignment
semantics of the stores we model. -/
def lookupProp {α : Type} : List (String × α) → String → Option α
  | [], _ => none
  | (k, v) :: rest, key => if key = k then some v else lookupProp rest key

/-- A transition target record, source shape { target: string }. -/
structure Transition where
  target : String
  deriving DecidableEq

/-- One state's configuration exactly as ActorImpl.send reads it:
optional on table, optional entry, optional onSuccess and onError.
An absent on table is the empty association list.  The source field is
named on; that word is reserved in Lean, so the field is onTable here. -/
structure StateNode (C P E : Type) where
  onTable : List (String × Transition) := []
  entry : Option (C → P → Except E C) := none
  onSuccess : Option Transition := none
  onError : Option Transition := none

/-- The runtime content of a machine definition: machineDefinition.config,
with the initial state name and the states record. -/
structure MachineConfig (C P E : Type) where
  initial : String
  states : List (String × StateNode C P E)

/-- The durable unit of actor state: id, state, context and the two
timestamps. -/
structure Snapshot (C : Type) where
  id : String
  state : String
  context : C
  createdAt : Nat
  updatedAt : Nat
  deriving DecidableEq

/-- An actor: a snapshot bound to its machine definition.  The source also
stores the adapter reference and copies id, state and context into
readonly fields of the instance; those copies equal the snapshot's fields
by the constructor, so here they are projections of the snapshot. -/
structure Actor (C P E : Type) where
  snapshot : Snapshot C
  machine : MachineConfig C P E

variable {C P E : Type}

/-- The three ways ActorImpl.send can finish: selfReturn is the source's
return this on an unmatched event (the same instance, by reference);
raised is throw error when an entry fails with no onError; next is
return new ActorImpl(newSnapshot, machineDefinition, adapter), a freshly
allocated instance. -/
inductive SendOutcome (C P E : Type) where
  | selfReturn : SendOutcome C P E
  | raised : E → SendOutcome C P E
  | next : Actor C P E → SendOutcome C P E

/-- The tail block of send: build the new snapshot (same id, resolved
state and context, createdAt copied from the prior snapshot, updatedAt
set to now), persist it via adapter.save, and return a new actor
instance wrapping it. -/
def Actor.finishSend (a : Actor C P E) (finalState : String) (newContext : C)
    (now : Nat) : SendOutcome C P E × List (Snapshot C) :=
  let newSnapshot : Snapshot C :=
    { id := a.snapshot.id
      state := finalState
      context := newContext
      createdAt := a.snapshot.createdAt
      updatedAt := now }
  (SendOutcome.next { snapshot := newSnapshot, machine := a.machine },
   [newSnapshot])

/-- ActorImpl.send.  The optional chain reading the transition is the two
nested lookups; a miss at either level is the no-op branch returning the
receiver itself with no save.  On a match, the target node's entry (when
present) runs on the current context and payload; success routes to
onSuccess.target when declared, failure routes to onError.target when
declared and otherwise re-raises; without an entry the target itself is
the final state and the context is unchanged. -/
def Actor.send (a : Actor C P E) (event : String) (payload : P) (now : Nat) :
    SendOutcome C P E × List (Snapshot C) :=
  match lookupProp a.machine.states a.snapshot.state with
  | none => (SendOutcome.selfReturn, [])
  | some currentStateConfig =>
    match lookupProp currentStateConfig.onTable event with
    | none => (SendOutcome.selfReturn, [])
    | some transition =>
      match lookupProp a.machine.states transition.target with
      | none => a.finishSend transition.target a.snapshot.context now
      | some targetStateConfig =>
        match targetStateConfig.entry with
        | none => a.finishSend transition.target a.snapshot.context now
        | some entryFn =>
          match entryFn a.snapshot.context payload with
          | Except.ok result =>
            match targetStateConfig.onSuccess with
            | some s => a.finishSend s.target result now
            | none => a.finishSend transition.target result now
          | Except.error err =>
            match targetStateConfig.onError with
            | some t => a.finishSend t.target a.snapshot.context now
            | none => (SendOutcome.raised err, [])

/-- The successor actor a caller obtains from an outcome, as in
actor = await actor.send(event): some only when send returned a new
instance. -/
def SendOutcome.nextActor : SendOutcome C P E → Option (Actor C P E)
  | SendOutcome.next a => some a
  | _ => none

/-- A caller's sequential chain of sends: each step carries its event, its
payload and the clock reading at that step.  On selfReturn the caller keeps
the same actor; on next it continues with the returned one; a raised error
rejects the chain, so later steps never run.  The second component collects
every snapshot handed to adapter.save along the chain. -/
def runSteps (a : Actor C P E) : List (String × P × Nat) → Actor C P E × List (Snapshot C)
  | [] => (a, [])
  | (e, p, t) :: rest =>
    match a.send e p t with
    | (SendOutcome.selfReturn, saves) =>
      ((runSteps a rest).1, saves ++ (runSteps a rest).2)
    | (SendOutcome.next a2, saves) =>
      ((runSteps a2 rest).1, saves ++ (runSteps a2 rest).2)
    | (SendOutcome.raised _, saves) => (a, saves)

/-- The final resolved state as the specification words its rule: the
target itself when the target node has no entry, the onSuccess target on
entry success, the onError target on a recovered entry failure.  Written
from the specification's sentences, for comparison against Actor.send;
none when the rule leaves the state undetermined. -/
def specResolvedState (node : Option (StateNode C P E)) (ctx : C) (payload : P)
    (target : String) : Option String :=
  match node with
  | none => some target
  | some n =>
    match n.entry with
    | none => some target
    | some f =>
      match f ctx payload with
      | Except.ok _ => Option.map Transition.target n.onSuccess
      | Except.error _ => Option.map Transition.target n.onError

/-- The key-value store backing the Redis adapter: newest binding first.
JSON serialization of the snapshot is modelled as the identity. -/
abbrev Store (C : Type) : Type := List (String × Snapshot C)

/-- RedisAdapter.load: get the value at the key, absent yields none. -/
def RedisAdapter.load (s : Store C) (id : String) : Option (Snapshot C) :=
  lookupProp s id

/-- RedisAdapter.create: build the snapshot with both timestamps set to the
same now and set it at the key, returning the snapshot and the updated
store. -/
def RedisAdapter.create (s : Store C) (id : String) (state : String)
    (context : C) (now : Nat) : Snapshot C × Store C :=
  let snapshot : Snapshot C :=
    { id := id, state := state, context := context,
      createdAt := now, updatedAt := now }
  (snapshot, (id, snapshot) :: s)

/-- The result of BoundMachineImpl.createActor: either the thrown
ActorAlreadyExistsError carrying the id, or the created actor. -/
inductive CreateActorResult (C P E : Type) where
  | alreadyExists : String → CreateActorResult C P E
  | created : Actor C P E → CreateActorResult C P E

/-- BoundMachineImpl.createActor: load first; an existing snapshot makes it
throw ActorAlreadyExistsError(id) without touching the store; otherwise
the adapter creates the initial snapshot at the machine definition's
initial state with the given context and the actor wrapping it is
returned.  The resulting store is returned alongside. -/
def BoundMachine.createActor (m : MachineConfig C P E) (s : Store C)
    (id : String) (context : C) (now : Nat) :
    CreateActorResult C P E × Store C :=
  match RedisAdapter.load s id with
  | some _ => (CreateActorResult.alreadyExists id, s)
  | none =>
    (CreateActorResult.created
      { snapshot := (RedisAdapter.create s id m.initial context now).1,
        machine := m },
     (RedisAdapter.create s id m.initial context now).2)

/-- Context of the traffic-light scenario: { cycleCount: number }. -/
structure TrafficContext where
  cycleCount : Nat
  deriving DecidableEq

/-- The traffic-light machine of the specification's concrete scenario:
red -(next)-> green -(next)-> yellow -(next)-> red, no entry functions. -/
def trafficMachine : MachineConfig TrafficContext Unit Unit :=
  { initial := "red",
    states :=
      [("red", { onTable := [("next", { target := "green" })] }),
       ("green", { onTable := [("next", { target := "yellow" })] }),
       ("yellow", { onTable := [("next", { target := "red" })] })] }

/-- An actor of the traffic-light machine resting at red with
cycleCount 0. -/
def trafficActor : Actor TrafficContext Unit Unit :=
  { snapshot :=
      { id := "light-1", state := "red", context := { cycleCount := 0 },
        createdAt := 0, updatedAt := 0 },
    machine := trafficMachine }

/-- Context of the processing scenario: { attempts: number }. -/
structure ProcContext where
  attempts : Nat
  deriving DecidableEq

/-- The entry function of the processing scenario: payload true makes it
throw, payload false returns the context with attempts incremented. -/
def procEntry : ProcContext → Bool → Except String ProcContext :=
  fun ctx shouldFail =>
    if shouldFail then Except.error "boom"
    else Except.ok { attempts := ctx.attempts + 1 }

/-- The retry machine of the specification's entry scenario: pending
-(process)-> processing, whose entry routes success to completed and
failure to failed; failed -(retry)-> processing. -/
def procMachine : MachineConfig ProcContext Bool String :=
  { initial := "pending",
    states :=
      [("pending", { onTable := [("process", { target := "processing" })] }),
       ("processing",
        { entry := some procEntry,
          onSuccess := some { target := "completed" },
          onError := some { target := "failed" } }),
       ("failed", { onTable := [("retry", { target := "processing" })] }),
       ("completed", {})] }

/-- An actor of the retry machine resting at pending with attempts 0. -/
def procActor : Actor ProcContext Bool String :=
  { snapshot :=
      { id := "p1", state := "pending", context := { attempts := 0 },
        createdAt := 0, updatedAt := 0 },
    machine := procMachine }

/-- A machine whose processing entry has no onError: failures re-raise. -/
def strictMachine : MachineConfig ProcContext Bool String :=
  { initial := "pending",
    states :=
      [("pending", { onTable := [("process", { target := "processing" })] }),
       ("processing",
        { entry := some procEntry,
          onSuccess := some { target := "completed" } }),
       ("completed", {})] }

/-- An actor of the strict machine resting at pending with attempts 0. -/
def strictActor : Actor ProcContext Bool String :=
  { snapshot :=
      { id := "s1", state := "pending", context := { attempts := 0 },
        createdAt := 0, updatedAt := 0 },
    machine := strictMachine }

/-- A machine with a dangling transition target: start maps go to nowhere,
and nowhere is not a key of states. -/
def danglingMachine : MachineConfig TrafficContext Unit Unit :=
  { initial := "start",
    states := [("start", { onTable := [("go", { target := "nowhere" })] })] }

/-- An actor of the dangling machine resting at start. -/
def danglingActor : Actor TrafficContext Unit Unit :=
  { snapshot :=
      { id := "d1", state := "start", context := { cycleCount := 0 },
        createdAt := 4, updatedAt := 4 },
    machine := danglingMachine }

/-- The snapshot RedisAdapter.create builds for id X on the traffic-light
machine at clock 3, used in the duplicate-create scenario. -/
def xSnap : Snapshot TrafficContext :=
  { id := "X", state := "red", context := { cycleCount := 0 },
    createdAt := 3, updatedAt := 3 }

/-- The actor produced by the first next event on the traffic light. -/
def trafficGreen : Actor TrafficContext Unit Unit :=
  { snapshot :=
      { id := "light-1", state := "green", context := { cycleCount := 0 },
        createdAt := 0, updatedAt := 1 },
    machine := trafficMachine }

/-- Every call to send lands in one of three shapes: the no-op pair, a
re-raised error with no save, or a fresh actor sharing the machine
reference whose single saved snapshot keeps the receiver's id and
createdAt and stamps updatedAt with now. -/
theorem send_shape (a : Actor C P E) (e : String) (p : P) (now : Nat) :
    a.send e p now = (SendOutcome.selfReturn, []) ∨
    (∃ err, a.send e p now = (SendOutcome.raised err, [])) ∨
    (∃ snap, a.send e p now =
        (SendOutcome.next { snapshot := snap, machine := a.machine }, [snap]) ∧
      snap.id = a.snapshot.id ∧ snap.createdAt = a.snapshot.createdAt ∧
      snap.updatedAt = now) := by
  unfold Actor.send Actor.finishSend
  repeat' split
  all_goals first
    | exact Or.inl rfl
    | exact Or.inr (Or.inl ⟨_, rfl⟩)
    | exact Or.inr (Or.inr ⟨_, rfl, rfl, rfl, rfl⟩)

/-- A matched event either re-raises an entry failure with no save, or
persists exactly one snapshot whose state agrees with the spec's
resolution rule wherever that rule determines a state. -/
theorem send_matched_spec (a : Actor C P E) (event : String) (p : P) (now : Nat)
    (cfg : StateNode C P E) (tr : Transition)
    (h1 : lookupProp a.machine.states a.snapshot.state = some cfg)
    (h2 : lookupProp cfg.onTable event = some tr) :
    (∃ err, a.send event p now = (SendOutcome.raised err, [])) ∨
    (∃ snap, a.send event p now =
        (SendOutcome.next { snapshot := snap, machine := a.machine }, [snap]) ∧
      snap.id = a.snapshot.id ∧ snap.createdAt = a.snapshot.createdAt ∧
      snap.updatedAt = now ∧
      ∀ s, specResolvedState (lookupProp a.machine.states tr.target)
          a.snapshot.context p tr.target = some s → snap.state = s) := by
  simp only [Actor.send, h1, h2]
  split
  · rename_i h3
    refine Or.inr ⟨_, rfl, rfl, rfl, rfl, ?_⟩
    intro s hs
    simp only [specResolvedState, h3, Option.some.injEq] at hs
    exact hs
  · rename_i tcfg h3
    split
    · rename_i h4
      refine Or.inr ⟨_, rfl, rfl, rfl, rfl, ?_⟩
      intro s hs
      simp only [specResolvedState, h3, h4, Option.some.injEq] at hs
      exact hs
    · rename_i f h4
      split
      · rename_i result h5
        split
        · rename_i s2 h6
          refine Or.inr ⟨_, rfl, rfl, rfl, rfl, ?_⟩
          intro s hs
          simp only [specResolvedState, h3, h4, h5, h6, Option.map_some', Option.some.injEq] at hs
          exact hs
        · rename_i h6
          refine Or.inr ⟨_, rfl, rfl, rfl, rfl, ?_⟩
          intro s hs
          simp [specResolvedState, h3, h4, h5, h6] at hs
      · rename_i err h5
        split
        · rename_i t h6
          refine Or.inr ⟨_, rfl, rfl, rfl, rfl, ?_⟩
          intro s hs
          simp only [specResolvedState, h3, h4, h5, h6, Option.map_some', Option.some.injEq] at hs
          exact hs
        · rename_i h6
          exact Or.inl ⟨err, rfl⟩

/-- Unpacking a send that returned a new actor: the successor keeps the
receiver's id and createdAt, is stamped with now, shares the machine
reference, and its snapshot is exactly the one saved. -/
theorem send_next_facts (a : Actor C P E) (e : String) (p : P) (now : Nat)
    (a2 : Actor C P E) (saves : List (Snapshot C))
    (h : a.send e p now = (SendOutcome.next a2, saves)) :
    a2.snapshot.id = a.snapshot.id ∧
    a2.snapshot.createdAt = a.snapshot.createdAt ∧
    a2.snapshot.updatedAt = now ∧ saves = [a2.snapshot] ∧
    a2.machine = a.machine := by
  rcases send_shape a e p now with h1 | ⟨err, h1⟩ | ⟨snap, h1, hid, hcr, hup⟩
  · rw [h] at h1
    simp at h1
  · rw [h] at h1
    simp at h1
  · rw [h] at h1
    rw [Prod.mk.injEq] at h1
    obtain ⟨hA, hS⟩ := h1
    injection hA with hA2
    subst hA2
    exact ⟨hid, hcr, hup, hS, rfl⟩

/-- Every snapshot saved along a chain of sends keeps the initial actor's
id and createdAt. -/
theorem runSteps_saves_mem (steps : List (String × P × Nat)) (a : Actor C P E)
    (snap : Snapshot C) (h : snap ∈ (runSteps a steps).2) :
    snap.id = a.snapshot.id ∧ snap.createdAt = a.snapshot.createdAt := by
  induction steps generalizing a with
  | nil => simp [runSteps] at h
  | cons s rest ih =>
    obtain ⟨e, p, t⟩ := s
    rcases send_shape a e p t with h1 | ⟨err, h1⟩ | ⟨snap2, h1, hid, hcr, hup⟩
    · simp only [runSteps, h1, List.nil_append] at h
      exact ih a h
    · simp only [runSteps, h1] at h
      simp at h
    · simp only [runSteps, h1, List.singleton_append] at h
      rcases List.mem_cons.mp h with h | h
      · subst h
        exact ⟨hid, hcr⟩
      · have h2 := ih { snapshot := snap2, machine := a.machine } h
        exact ⟨h2.1.trans hid, h2.2.trans hcr⟩

/-- The updatedAt stamps of the snapshots saved along a chain form a
sublist, in order, of the chain's clock readings. -/
theorem runSteps_saves_sublist (steps : List (String × P × Nat)) (a : Actor C P E) :
    ((runSteps a steps).2.map Snapshot.updatedAt).Sublist
      (steps.map fun s => s.2.2) := by
  induction steps generalizing a with
  | nil => simp [runSteps]
  | cons s rest ih =>
    obtain ⟨e, p, t⟩ := s
    rcases send_shape a e p t with h1 | ⟨err, h1⟩ | ⟨snap2, h1, hid, hcr, hup⟩
    · simp only [runSteps, h1, List.nil_append, List.map_cons]
      exact (ih a).cons t
    · simp only [runSteps, h1, List.map_nil]
      simp
    · simp only [runSteps, h1, List.singleton_append, List.map_cons]
      rw [hup]
      exact (ih _).cons₂ t

/-- Claim C1: for every actor and every event not present as a key in the
current state's on table (also when the on table is absent, the empty
table here), send returns the very same instance — the source's
return this, the selfReturn outcome — so state, context and id are
untouched, and adapter.save is never invoked: the save list is empty. -/
theorem c1_unmatched_event_noop (a : Actor C P E) (event : String) (p : P)
    (now : Nat)
    (h : ∀ cfg, lookupProp a.machine.states a.snapshot.state = some cfg →
      lookupProp cfg.onTable event = none) :
    a.send event p now = (SendOutcome.selfReturn, []) := by
  cases hc : lookupProp a.machine.states a.snapshot.state with
  | none => simp only [Actor.send, hc]
  | some cfg => simp only [Actor.send, hc, h cfg hc]

/-- Witness for C1: the traffic light at red ignores the stop event. -/
theorem c1_unmatched_event_noop_witness :
    trafficActor.send "stop" () 5 = (SendOutcome.selfReturn, []) :=
  c1_unmatched_event_noop trafficActor "stop" () 5
    (fun cfg hc => by
      have h0 : lookupProp trafficActor.machine.states trafficActor.snapshot.state =
          some ({ onTable := [("next", { target := "green" })] } :
            StateNode TrafficContext Unit Unit) := rfl
      rw [h0] at hc
      injection hc with h1
      rw [← h1]
      rfl)

/-- Claim C2: when the current state maps the event to a target whose node
has no entry, send yields a new actor in the target state with the
context unchanged; and on the traffic-light machine three successive
next events from red pass through green, yellow and red with the context
unchanged. -/
theorem c2_entryless_transition :
    (∀ (a : Actor C P E) (event : String) (p : P) (now : Nat)
      (cfg : StateNode C P E) (tr : Transition) (tcfg : StateNode C P E),
      lookupProp a.machine.states a.snapshot.state = some cfg →
      lookupProp cfg.onTable event = some tr →
      lookupProp a.machine.states tr.target = some tcfg →
      tcfg.entry = none →
      a.send event p now =
        (SendOutcome.next
          { snapshot :=
              { id := a.snapshot.id, state := tr.target,
                context := a.snapshot.context,
                createdAt := a.snapshot.createdAt, updatedAt := now },
            machine := a.machine },
         [{ id := a.snapshot.id, state := tr.target,
            context := a.snapshot.context,
            createdAt := a.snapshot.createdAt, updatedAt := now }])) ∧
    ((trafficActor.send "next" () 1).1.nextActor.bind (fun a1 =>
      (a1.send "next" () 2).1.nextActor.bind (fun a2 =>
        (a2.send "next" () 3).1.nextActor.bind (fun a3 =>
          some (a1.snapshot.state, a2.snapshot.state, a3.snapshot.state,
            a3.snapshot.context)))) =
      some ("green", "yellow", "red", { cycleCount := 0 })) := by
  constructor
  · intro a event p now cfg tr tcfg h1 h2 h3 h4
    simp only [Actor.send, h1, h2, h3, h4]
    rfl
  · rfl

/-- Witness for C2: the first next event at red moves to green. -/
theorem c2_entryless_transition_witness :
    trafficActor.send "next" () 1 =
      (SendOutcome.next
        { snapshot :=
            { id := "light-1", state := "green",
              context := { cycleCount := 0 }, createdAt := 0, updatedAt := 1 },
          machine := trafficMachine },
       [{ id := "light-1", state := "green", context := { cycleCount := 0 },
          createdAt := 0, updatedAt := 1 }]) :=
  c2_entryless_transition.1 trafficActor "next" () 1
    { onTable := [("next", { target := "green" })] } { target := "green" }
    { onTable := [("next", { target := "yellow" })] } rfl rfl rfl rfl

/-- Claim C3: when the event's target node has an entry and
onSuccess.target is T, an entry returning a context makes send yield a
new actor in state T — not the intermediate target — carrying that
returned context. -/
theorem c3_entry_success_routing (a : Actor C P E) (event : String) (p : P)
    (now : Nat) (cfg : StateNode C P E) (tr : Transition)
    (tcfg : StateNode C P E) (f : C → P → Except E C) (T : Transition)
    (newCtx : C)
    (h1 : lookupProp a.machine.states a.snapshot.state = some cfg)
    (h2 : lookupProp cfg.onTable event = some tr)
    (h3 : lookupProp a.machine.states tr.target = some tcfg)
    (h4 : tcfg.entry = some f)
    (h5 : tcfg.onSuccess = some T)
    (h6 : f a.snapshot.context p = Except.ok newCtx) :
    a.send event p now =
      (SendOutcome.next
        { snapshot :=
            { id := a.snapshot.id, state := T.target,
              context := newCtx, createdAt := a.snapshot.createdAt,
              updatedAt := now },
          machine := a.machine },
       [{ id := a.snapshot.id, state := T.target, context := newCtx,
          createdAt := a.snapshot.createdAt, updatedAt := now }]) := by
  simp only [Actor.send, h1, h2, h3, h4, h6, h5]
  rfl

/-- Witness for C3: processing with payload false succeeds, lands in
completed and increments attempts. -/
theorem c3_entry_success_routing_witness :
    procActor.send "process" false 7 =
      (SendOutcome.next
        { snapshot :=
            { id := "p1", state := "completed",
              context := { attempts := 1 }, createdAt := 0, updatedAt := 7 },
          machine := procMachine },
       [{ id := "p1", state := "completed", context := { attempts := 1 },
          createdAt := 0, updatedAt := 7 }]) :=
  c3_entry_success_routing procActor "process" false 7
    { onTable := [("process", { target := "processing" })] }
    { target := "processing" }
    { entry := some procEntry, onSuccess := some { target := "completed" },
      onError := some { target := "failed" } }
    procEntry { target := "completed" } { attempts := 1 }
    rfl rfl rfl rfl rfl rfl

/-- Claim C4: when the event's target node has an entry that fails and an
onError with target T, send yields a new actor in state T whose context
is the one from before the entry call, and the transition is persisted:
exactly that snapshot goes to adapter.save. -/
theorem c4_entry_failure_recovered (a : Actor C P E) (event : String) (p : P)
    (now : Nat) (cfg : StateNode C P E) (tr : Transition)
    (tcfg : StateNode C P E) (f : C → P → Except E C) (T : Transition)
    (err : E)
    (h1 : lookupProp a.machine.states a.snapshot.state = some cfg)
    (h2 : lookupProp cfg.onTable event = some tr)
    (h3 : lookupProp a.machine.states tr.target = some tcfg)
    (h4 : tcfg.entry = some f)
    (h5 : tcfg.onError = some T)
    (h6 : f a.snapshot.context p = Except.error err) :
    a.send event p now =
      (SendOutcome.next
        { snapshot :=
            { id := a.snapshot.id, state := T.target,
              context := a.snapshot.context,
              createdAt := a.snapshot.createdAt, updatedAt := now },
          machine := a.machine },
       [{ id := a.snapshot.id, state := T.target,
          context := a.snapshot.context,
          createdAt := a.snapshot.createdAt, updatedAt := now }]) := by
  simp only [Actor.send, h1, h2, h3, h4, h6, h5]
  rfl

/-- Witness for C4: processing with payload true fails, lands in failed
with attempts still 0, and that snapshot is saved. -/
theorem c4_entry_failure_recovered_witness :
    procActor.send "process" true 7 =
      (SendOutcome.next
        { snapshot :=
            { id := "p1", state := "failed",
              context := { attempts := 0 }, createdAt := 0, updatedAt := 7 },
          machine := procMachine },
       [{ id := "p1", state := "failed", context := { attempts := 0 },
          createdAt := 0, updatedAt := 7 }]) :=
  c4_entry_failure_recovered procActor "process" true 7
    { onTable := [("process", { target := "processing" })] }
    { target := "processing" }
    { entry := some procEntry, onSuccess := some { target := "completed" },
      onError := some { target := "failed" } }
    procEntry { target := "failed" } "boom"
    rfl rfl rfl rfl rfl rfl

/-- Claim C5: when the event's target node has an entry that fails and no
onError, send re-raises that very error, builds no snapshot and never
calls adapter.save; the receiver, a pure value here with readonly fields
in the source, keeps its last known-good state and context. -/
theorem c5_entry_failure_reraise (a : Actor C P E) (event : String) (p : P)
    (now : Nat) (cfg : StateNode C P E) (tr : Transition)
    (tcfg : StateNode C P E) (f : C → P → Except E C) (err : E)
    (h1 : lookupProp a.machine.states a.snapshot.state = some cfg)
    (h2 : lookupProp cfg.onTable event = some tr)
    (h3 : lookupProp a.machine.states tr.target = some tcfg)
    (h4 : tcfg.entry = some f)
    (h5 : tcfg.onError = none)
    (h6 : f a.snapshot.context p = Except.error err) :
    a.send event p now = (SendOutcome.raised err, []) := by
  simp only [Actor.send, h1, h2, h3, h4, h6, h5]

/-- Witness for C5: the strict machine's processing entry fails on payload
true and the failure surfaces with nothing saved. -/
theorem c5_entry_failure_reraise_witness :
    strictActor.send "process" true 9 = (SendOutcome.raised "boom", []) :=
  c5_entry_failure_reraise strictActor "process" true 9
    { onTable := [("process", { target := "processing" })] }
    { target := "processing" }
    { entry := some procEntry, onSuccess := some { target := "completed" } }
    procEntry "boom"
    rfl rfl rfl rfl rfl rfl

/-- Claim C6: a matched event whose send completes without raising calls
adapter.save exactly once, and the persisted snapshot's state agrees with
the entry/onSuccess/onError resolution rule (specResolvedState) wherever
that rule determines a state. -/
theorem c6_persist_once (a : Actor C P E) (event : String) (p : P) (now : Nat)
    (cfg : StateNode C P E) (tr : Transition)
    (h1 : lookupProp a.machine.states a.snapshot.state = some cfg)
    (h2 : lookupProp cfg.onTable event = some tr)
    (h3 : ∀ err, (a.send event p now).1 ≠ SendOutcome.raised err) :
    (a.send event p now).2.length = 1 ∧
    ∀ s snap, specResolvedState (lookupProp a.machine.states tr.target)
        a.snapshot.context p tr.target = some s →
      snap ∈ (a.send event p now).2 → snap.state = s := by
  rcases send_matched_spec a event p now cfg tr h1 h2 with
    ⟨err, hE⟩ | ⟨snap, hN, hid, hcr, hup, hstate⟩
  · exact absurd (by rw [hE]) (h3 err)
  · rw [hN]
    refine ⟨rfl, ?_⟩
    intro s snap2 hs hmem
    have h4 := List.mem_singleton.mp hmem
    subst h4
    exact hstate s hs

/-- Witness for C6: the recovered entry failure on the retry machine saves
one snapshot whose state is the one the rule resolves. -/
theorem c6_persist_once_witness :
    (procActor.send "process" true 7).2.length = 1 ∧
    ∀ s snap, specResolvedState
        (lookupProp procActor.machine.states "processing")
        procActor.snapshot.context true "processing" = some s →
      snap ∈ (procActor.send "process" true 7).2 → snap.state = s :=
  c6_persist_once procActor "process" true 7
    { onTable := [("process", { target := "processing" })] }
    { target := "processing" } rfl rfl
    (fun _ h => SendOutcome.noConfusion h)

/-- Claim C7: every persisted transition keeps the prior snapshot's id,
copies createdAt verbatim — and so createdAt is unchanged along a whole
lineage of chained sends — and stamps updatedAt with the clock reading at
that transition, so a chain with non-decreasing clock readings persists
non-decreasing updatedAt stamps. -/
theorem c7_timestamp_invariants :
    (∀ (a : Actor C P E) (e : String) (p : P) (now : Nat) a2 saves,
      a.send e p now = (SendOutcome.next a2, saves) →
      a2.snapshot.id = a.snapshot.id ∧
      a2.snapshot.createdAt = a.snapshot.createdAt ∧
      a2.snapshot.updatedAt = now ∧ saves = [a2.snapshot]) ∧
    (∀ (a : Actor C P E) (steps : List (String × P × Nat)) snap,
      snap ∈ (runSteps a steps).2 →
      snap.id = a.snapshot.id ∧ snap.createdAt = a.snapshot.createdAt) ∧
    (∀ (a : Actor C P E) (steps : List (String × P × Nat)),
      (steps.map fun s => s.2.2).Pairwise (· ≤ ·) →
      ((runSteps a steps).2.map Snapshot.updatedAt).Pairwise (· ≤ ·)) := by
  refine ⟨?_, ?_, ?_⟩
  · intro a e p now a2 saves h
    obtain ⟨hid, hcr, hup, hS, _⟩ := send_next_facts a e p now a2 saves h
    exact ⟨hid, hcr, hup, hS⟩
  · intro a steps snap h
    exact runSteps_saves_mem steps a snap h
  · intro a steps h
    exact h.sublist (runSteps_saves_sublist steps a)

/-- Witness for C7: the first next event on the traffic light yields the
green actor with id and createdAt kept and updatedAt stamped 1. -/
theorem c7_timestamp_invariants_witness :
    trafficGreen.snapshot.id = trafficActor.snapshot.id ∧
    trafficGreen.snapshot.createdAt = trafficActor.snapshot.createdAt ∧
    trafficGreen.snapshot.updatedAt = 1 ∧
    [trafficGreen.snapshot] = [trafficGreen.snapshot] :=
  c7_timestamp_invariants.1 trafficActor "next" () 1 trafficGreen
    [trafficGreen.snapshot] rfl

/-- Claim C8: createActor on an id the adapter already holds throws
ActorAlreadyExists with that id and leaves the store untouched — no
create happens, the stored snapshot stays the first one's — while on a
fresh id it creates the initial snapshot at the machine definition's
initial state with the given context and returns the actor wrapping
it. -/
theorem c8_create_actor (m : MachineConfig C P E) (s : Store C) (id : String)
    (ctx : C) (now : Nat) :
    (∀ snap, RedisAdapter.load s id = some snap →
      BoundMachine.createActor m s id ctx now =
        (CreateActorResult.alreadyExists id, s)) ∧
    (RedisAdapter.load s id = none →
      BoundMachine.createActor m s id ctx now =
        (CreateActorResult.created
          { snapshot :=
              { id := id, state := m.initial, context := ctx,
                createdAt := now, updatedAt := now },
            machine := m },
         (id, { id := id, state := m.initial, context := ctx,
                createdAt := now, updatedAt := now }) :: s)) := by
  constructor
  · intro snap h
    simp only [BoundMachine.createActor, h]
  · intro h
    simp only [BoundMachine.createActor, h]
    rfl

/-- Witness for C8: creating X on an empty store succeeds; creating X
again on the resulting store fails with the id and the store keeps the
first snapshot. -/
theorem c8_create_actor_witness :
    BoundMachine.createActor trafficMachine [] "X" { cycleCount := 0 } 3 =
      (CreateActorResult.created { snapshot := xSnap, machine := trafficMachine },
       [("X", xSnap)]) ∧
    BoundMachine.createActor trafficMachine [("X", xSnap)] "X"
        { cycleCount := 0 } 9 =
      (CreateActorResult.alreadyExists "X", [("X", xSnap)]) :=
  ⟨(c8_create_actor trafficMachine [] "X" { cycleCount := 0 } 3).2 rfl,
   (c8_create_actor trafficMachine [("X", xSnap)] "X"
      { cycleCount := 0 } 9).1 xSnap rfl⟩

/-- Claim C9: an effective transition never takes the return-this branch —
the result is a freshly constructed instance, reference-distinct from the
receiver in the source — and that fresh actor shares the machine
reference and the id.  The receiver's own state and context are readonly
fields in the source and the embedding is pure, so they are unchanged
after send by construction. -/
theorem c9_returns_fresh_actor (a : Actor C P E) (event : String) (p : P)
    (now : Nat) (cfg : StateNode C P E) (tr : Transition)
    (h1 : lookupProp a.machine.states a.snapshot.state = some cfg)
    (h2 : lookupProp cfg.onTable event = some tr)
    (h3 : ∀ err, (a.send event p now).1 ≠ SendOutcome.raised err) :
    (a.send event p now).1 ≠ SendOutcome.selfReturn ∧
    ∃ a2, (a.send event p now).1 = SendOutcome.next a2 ∧
      a2.machine = a.machine ∧ a2.snapshot.id = a.snapshot.id := by
  rcases send_matched_spec a event p now cfg tr h1 h2 with
    ⟨err, hE⟩ | ⟨snap, hN, hid, hcr, hup, hstate⟩
  · exact absurd (by rw [hE]) (h3 err)
  · rw [hN]
    exact ⟨fun hh => SendOutcome.noConfusion hh, ⟨_, rfl, rfl, hid⟩⟩

/-- Witness for C9: the first next event on the traffic light returns a
fresh actor, not the receiver. -/
theorem c9_returns_fresh_actor_witness :
    (trafficActor.send "next" () 1).1 ≠ SendOutcome.selfReturn ∧
    ∃ a2, (trafficActor.send "next" () 1).1 = SendOutcome.next a2 ∧
      a2.machine = trafficActor.machine ∧
      a2.snapshot.id = trafficActor.snapshot.id :=
  c9_returns_fresh_actor trafficActor "next" () 1
    { onTable := [("next", { target := "green" })] } { target := "green" }
    rfl rfl (fun _ h => SendOutcome.noConfusion h)

/-- Claim C10 (implicit): when the matched transition's target is not a key
of states, send does not raise: the missing node is treated exactly like
an entry-less node, so the engine persists and returns a new actor whose
state is the dangling name with context unchanged — the returned actor's
state is not a key of its own machine's states. -/
theorem c10_dangling_target (a : Actor C P E) (event : String) (p : P)
    (now : Nat) (cfg : StateNode C P E) (tr : Transition)
    (h1 : lookupProp a.machine.states a.snapshot.state = some cfg)
    (h2 : lookupProp cfg.onTable event = some tr)
    (h3 : lookupProp a.machine.states tr.target = none) :
    ∃ a2, a.send event p now = (SendOutcome.next a2, [a2.snapshot]) ∧
      a2.snapshot.state = tr.target ∧
      a2.snapshot.context = a.snapshot.context ∧
      a2.machine = a.machine ∧
      lookupProp a2.machine.states a2.snapshot.state = none := by
  refine ⟨{ snapshot :=
              { id := a.snapshot.id, state := tr.target,
                context := a.snapshot.context,
                createdAt := a.snapshot.createdAt, updatedAt := now },
            machine := a.machine }, ?_, rfl, rfl, rfl, ?_⟩
  · simp only [Actor.send, h1, h2, h3]
    rfl
  · exact h3

/-- Witness for C10: the dangling machine's go event persists and returns
an actor resting in the nonexistent state nowhere. -/
theorem c10_dangling_target_witness :
    ∃ a2, danglingActor.send "go" () 5 = (SendOutcome.next a2, [a2.snapshot]) ∧
      a2.snapshot.state = "nowhere" ∧
      a2.snapshot.context = { cycleCount := 0 } ∧
      a2.machine = danglingMachine ∧
      lookupProp a2.machine.states a2.snapshot.state = none :=
  c10_dangling_target danglingActor "go" () 5
    { onTable := [("go", { target := "nowhere" })] } { target := "nowhere" }
    rfl rfl rfl

end Machin
